import Mathlib

/-!
Verification of the IntelliRoute Africa logistics core against its code.

Shallow embedding of the Order lifecycle manager
(`src/Backend/models/Order.js`, `src/Backend/controllers/orders.js`),
the Route lifecycle manager
(`src/Backend/models/Route.js` RouteSchema, `src/Backend/controllers/routes.js`),
and the Inventory ledger
(`src/Backend/models/Route.js` InventorySchema, `src/Backend/controllers/inventory.js`).

JavaScript numbers are modelled as `ℚ` (exact for the additive arithmetic the
code performs), timestamps as `Int` milliseconds (a JS `Date` value), ids as `Nat`.
Controller-level HTTP failures are mapped to the spec's error taxonomy by the
message of the failing branch.
-/

set_option autoImplicit false

namespace IntelliRoute

/-- Error taxonomy of the spec (§7); each controller failure branch is mapped to
the taxonomy entry matching its response message. -/
inductive ApiError
  | notFound
  | validationError
  | invalidTransition
  | conflict
  | capacityExceeded
  | vehicleUnavailable
  | insufficientStock
deriving DecidableEq

/-! ## Inventory ledger

From `InventorySchema` in `src/Backend/models/Route.js` and
`src/Backend/controllers/inventory.js`. -/

/-- Movement `type` enum of `InventorySchema.movements`
(`['in','out','transfer','adjustment','damaged','expired','lost']`);
`tIn` stands for the string `'in'` (a Lean keyword). -/
inductive MovementType
  | tIn
  | tOut
  | transfer
  | adjustment
  | damaged
  | expired
  | lost
deriving DecidableEq

/-- Item `status` enum (`['active','inactive','discontinued','out-of-stock','low-stock']`). -/
inductive ItemStatus
  | active
  | inactive
  | discontinued
  | outOfStock
  | lowStock
deriving DecidableEq

/-- The `stock` subdocument: `{current, reserved, available, reorderPoint, ...}`. -/
structure Stock where
  current : ℚ
  reserved : ℚ
  available : ℚ
  reorderPoint : ℚ
deriving DecidableEq

/-- One entry of the append-only `movements` ledger. -/
structure Movement where
  type : MovementType
  quantity : ℚ
  reason : String
  user : Nat
  reference : Option Nat
  notes : Option String
  timestamp : Int
deriving DecidableEq

/-- The `analytics` running totals touched by the ledger operations. -/
structure Analytics where
  totalIn : ℚ
  totalOut : ℚ
  lastSoldDate : Option Int
deriving DecidableEq

/-- The Inventory aggregate (the fields the ledger operations read or write). -/
structure InventoryItem where
  stock : Stock
  status : ItemStatus
  movements : List Movement
  analytics : Analytics
deriving DecidableEq

namespace InventoryItem

/-- Virtual `stockAvailable`: `Math.max(0, current - reserved)`. -/
def stockAvailable (item : InventoryItem) : ℚ :=
  max 0 (item.stock.current - item.stock.reserved)

/-- `InventorySchema.pre('save')`: recomputes `stock.available` as
`Math.max(0, current - reserved)` and rederives `status` from stock levels. -/
def preSave (item : InventoryItem) : InventoryItem :=
  let available := max 0 (item.stock.current - item.stock.reserved)
  let status :=
    if available ≤ 0 then ItemStatus.outOfStock
    else if available ≤ item.stock.reorderPoint then ItemStatus.lowStock
    else if item.status = ItemStatus.outOfStock ∨ item.status = ItemStatus.lowStock then
      ItemStatus.active
    else item.status
  { item with stock := { item.stock with available := available }, status := status }

/-- `InventorySchema.methods.addMovement(type, quantity, reason, user, reference, notes)`:
pushes a ledger entry with `Math.abs(quantity)`, then updates `stock.current` and the
running totals according to the movement kind; the decrease branch clamps at zero
(`Math.max(0, current - Math.abs(quantity))`). Ends in `save()` (pre-save hook). -/
def addMovement (item : InventoryItem) (type : MovementType) (quantity : ℚ)
    (reason : String) (user : Nat) (reference : Option Nat) (notes : Option String)
    (now : Int) : InventoryItem :=
  let movement : Movement :=
    { type := type, quantity := |quantity|, reason := reason, user := user,
      reference := reference, notes := notes, timestamp := now }
  let item := { item with movements := item.movements ++ [movement] }
  let item :=
    if type = MovementType.tIn ∨ (type = MovementType.adjustment ∧ 0 < quantity) then
      { item with
        stock := { item.stock with current := item.stock.current + |quantity| },
        analytics := { item.analytics with totalIn := item.analytics.totalIn + |quantity| } }
    else if type = MovementType.tOut ∨ type = MovementType.damaged ∨
        type = MovementType.expired ∨ type = MovementType.lost ∨
        (type = MovementType.adjustment ∧ quantity < 0) then
      let item :=
        { item with
          stock := { item.stock with
            current := max 0 (item.stock.current - |quantity|) },
          analytics := { item.analytics with totalOut := item.analytics.totalOut + |quantity| } }
      if type = MovementType.tOut then
        { item with analytics := { item.analytics with lastSoldDate := some now } }
      else item
    else item
  preSave item

/-- `InventorySchema.methods.reserveStock(quantity, reason, user)`: throws
`'Insufficient stock available for reservation'` if `quantity > stockAvailable`;
otherwise increments `stock.reserved` and pushes an `'out'` movement whose reason
is the given reason prefixed with `"Reserved: "`. Ends in `save()`. -/
def reserveStock (item : InventoryItem) (quantity : ℚ) (reason : String)
    (user : Nat) (now : Int) : Except ApiError InventoryItem :=
  if item.stockAvailable < quantity then .error ApiError.insufficientStock
  else
    .ok (preSave
      { item with
        stock := { item.stock with reserved := item.stock.reserved + quantity },
        movements := item.movements ++
          [{ type := MovementType.tOut, quantity := quantity,
             reason := "Reserved: " ++ reason, user := user,
             reference := none, notes := none, timestamp := now }] })

/-- `InventorySchema.methods.releaseReservedStock(quantity, reason, user)`:
decrements `stock.reserved` by `Math.min(quantity, reserved)` and pushes an `'in'`
movement for the released amount. Ends in `save()`. -/
def releaseReservedStock (item : InventoryItem) (quantity : ℚ) (reason : String)
    (user : Nat) (now : Int) : InventoryItem :=
  let releaseQuantity := min quantity item.stock.reserved
  preSave
    { item with
      stock := { item.stock with reserved := item.stock.reserved - releaseQuantity },
      movements := item.movements ++
        [{ type := MovementType.tIn, quantity := releaseQuantity,
           reason := "Released: " ++ reason, user := user,
           reference := none, notes := none, timestamp := now }] }

end InventoryItem

/-- Whether a movement is of a decrease kind, as tested by both
`controllers/inventory.js` (`['out','damaged','expired','lost'].includes(type) ||
(type === 'adjustment' && quantity < 0)`) and the model method. -/
def decreaseKind (type : MovementType) (quantity : ℚ) : Prop :=
  type = MovementType.tOut ∨ type = MovementType.damaged ∨
    type = MovementType.expired ∨ type = MovementType.lost ∨
    (type = MovementType.adjustment ∧ quantity < 0)

instance (type : MovementType) (quantity : ℚ) : Decidable (decreaseKind type quantity) := by
  unfold decreaseKind; infer_instance

/-- Controller `addMovement` (`src/Backend/controllers/inventory.js`): rejects
`quantity <= 0` (400, validation), rejects decrease kinds with
`Math.abs(quantity) > item.stock.current` (400, `'Insufficient stock for this
movement'`), otherwise invokes the model method. -/
def addMovementCtrl (item : InventoryItem) (type : MovementType) (quantity : ℚ)
    (reason : String) (user : Nat) (reference : Option Nat) (notes : Option String)
    (now : Int) : Except ApiError InventoryItem :=
  if quantity ≤ 0 then .error ApiError.validationError
  else if decreaseKind type quantity ∧ item.stock.current < |quantity| then
    .error ApiError.insufficientStock
  else .ok (item.addMovement type quantity reason user reference notes now)

/-- Controller `reserveStock`: rejects `quantity <= 0` (400, validation), then
invokes the model method (whose throw surfaces as `InsufficientStock`). -/
def reserveStockCtrl (item : InventoryItem) (quantity : ℚ) (reason : String)
    (user : Nat) (now : Int) : Except ApiError InventoryItem :=
  if quantity ≤ 0 then .error ApiError.validationError
  else item.reserveStock quantity reason user now

/-- Controller `releaseReservedStock`: rejects `quantity <= 0` (400, validation),
rejects `quantity > item.stock.reserved` (400, `'Cannot release more than reserved
quantity'`), otherwise invokes the model method. -/
def releaseReservedStockCtrl (item : InventoryItem) (quantity : ℚ) (reason : String)
    (user : Nat) (now : Int) : Except ApiError InventoryItem :=
  if quantity ≤ 0 then .error ApiError.validationError
  else if item.stock.reserved < quantity then .error ApiError.validationError
  else .ok (item.releaseReservedStock quantity reason user now)

/-- One ledger operation request, for reasoning about operation sequences. -/
inductive InvOp
  | movement (type : MovementType) (quantity : ℚ) (reason : String) (user : Nat)
      (reference : Option Nat) (notes : Option String) (now : Int)
  | reserve (quantity : ℚ) (reason : String) (user : Nat) (now : Int)
  | release (quantity : ℚ) (reason : String) (user : Nat) (now : Int)

/-- Runs one controller-level ledger operation; a failing operation performs no
mutation (the controllers return before calling the model method). -/
def runInvOp (item : InventoryItem) (op : InvOp) : InventoryItem :=
  match op with
  | .movement t q r u ref n now =>
    match addMovementCtrl item t q r u ref n now with
    | .ok item2 => item2
    | .error _ => item
  | .reserve q r u now =>
    match reserveStockCtrl item q r u now with
    | .ok item2 => item2
    | .error _ => item
  | .release q r u now =>
    match releaseReservedStockCtrl item q r u now with
    | .ok item2 => item2
    | .error _ => item

/-- Runs a sequence of ledger operations. -/
def runInvOps (item : InventoryItem) (ops : List InvOp) : InventoryItem :=
  ops.foldl runInvOp item

/-- The stock-field invariant the code actually maintains: nonnegative physical
and reserved stock, and `available = max 0 (current - reserved)` as written by the
pre-save hook. -/
def StockInv (item : InventoryItem) : Prop :=
  0 ≤ item.stock.current ∧ 0 ≤ item.stock.reserved ∧
    item.stock.available = max 0 (item.stock.current - item.stock.reserved)

/-! ## Vehicles

From `src/Backend/models/Vehicle.js` (the fields this core reads or writes). -/

/-- Vehicle `status` values. The schema enum lists
`['available','in-transit','maintenance','out-of-service','loading','unloading']`;
`assigned` is included because `controllers/orders.js` writes the string
`'assigned'` into this field on assignment. -/
inductive VehicleStatus
  | available
  | assigned
  | inTransit
  | maintenance
  | outOfService
  | loading
  | unloading
deriving DecidableEq

/-- The `metrics` subdocument fields `completeRoute` folds into. -/
structure VehicleMetrics where
  totalTrips : ℚ
  totalDistance : ℚ
  totalFuelConsumed : ℚ
deriving DecidableEq

/-- The Vehicle aggregate (the fields this core reads or writes). -/
structure Vehicle where
  status : VehicleStatus
  assignedDriver : Option Nat
  capacityWeight : ℚ
  metrics : VehicleMetrics
deriving DecidableEq

/-- User `role` enum of `src/Backend/models/User.js`
(`['admin','driver','fleet-manager','producer','wholesaler','retailer']`). -/
inductive Role
  | admin
  | driver
  | fleetManager
  | producer
  | wholesaler
  | retailer
deriving DecidableEq

/-- A user-directory record, as read by `assignOrder` to validate the driver. -/
structure UserRec where
  role : Role
deriving DecidableEq

/-! ## Order lifecycle manager

From `src/Backend/models/Order.js` and `src/Backend/controllers/orders.js`. -/

/-- Order `status` enum of `OrderSchema`. -/
inductive OrderStatus
  | pending
  | confirmed
  | processing
  | assigned
  | pickedUp
  | inTransit
  | outForDelivery
  | delivered
  | cancelled
  | returned
  | failed
deriving DecidableEq

/-- A geographic location payload as passed to `updateStatus`. -/
structure Location where
  address : String
  lat : ℚ
  lng : ℚ
deriving DecidableEq

/-- `tracking.lastKnownLocation`: the location spread together with a timestamp
(`{ ...location, timestamp: new Date() }`). -/
structure TimedLocation where
  location : Location
  timestamp : Int
deriving DecidableEq

/-- One entry of `tracking.statusHistory`. -/
structure StatusUpdate where
  status : OrderStatus
  timestamp : Int
  updatedBy : Option Nat
  notes : Option String
  location : Option Location
  automatic : Bool
deriving DecidableEq

/-- The `tracking` subdocument fields the lifecycle operations touch. -/
structure OrderTracking where
  statusHistory : List StatusUpdate
  lastKnownLocation : Option TimedLocation
  actualDeliveryTime : Option Int
deriving DecidableEq

/-- The `cancellation` record written by `cancelOrder`. -/
structure Cancellation where
  cancelledAt : Int
  cancelledBy : Nat
  reason : String
  refundAmount : ℚ
  refundStatus : Option String
deriving DecidableEq

/-- The Order aggregate (the fields the lifecycle operations read or write). -/
structure Order where
  status : OrderStatus
  assignedDriver : Option Nat
  assignedVehicle : Option Nat
  cargoTotalWeight : ℚ
  pricingTotalAmount : ℚ
  tracking : OrderTracking
  cancellation : Option Cancellation
deriving DecidableEq

namespace Order

/-- `OrderSchema.methods.updateStatus(status, notes, location, updatedBy)`:
sets `status` unconditionally, pushes a history entry
`{status, timestamp, updatedBy, notes, automatic: false}` (plus `location` and a
`lastKnownLocation` update when a location is given), and sets
`tracking.actualDeliveryTime` when the new status is `'delivered'`. -/
def updateStatus (o : Order) (status : OrderStatus) (notes : Option String)
    (location : Option Location) (updatedBy : Nat) (now : Int) : Order :=
  let statusUpdate : StatusUpdate :=
    { status := status, timestamp := now, updatedBy := some updatedBy,
      notes := notes, location := location, automatic := false }
  let tracking :=
    match location with
    | some loc =>
      { o.tracking with lastKnownLocation := some { location := loc, timestamp := now } }
    | none => o.tracking
  let tracking :=
    { tracking with statusHistory := tracking.statusHistory ++ [statusUpdate] }
  let tracking :=
    if status = OrderStatus.delivered then
      { tracking with actualDeliveryTime := some now }
    else tracking
  { o with status := status, tracking := tracking }

/-- `OrderSchema.methods.assignDriverAndVehicle(driverId, vehicleId)`: binds the
driver and vehicle, sets status `'assigned'`, and pushes an automatic history
entry. -/
def assignDriverAndVehicle (o : Order) (driverId vehicleId : Nat) (now : Int) : Order :=
  { o with
    assignedDriver := some driverId
    assignedVehicle := some vehicleId
    status := OrderStatus.assigned
    tracking :=
      { o.tracking with statusHistory := o.tracking.statusHistory ++
          [{ status := OrderStatus.assigned, timestamp := now, updatedBy := none,
             notes := none, location := none, automatic := true }] } }

/-- `OrderSchema.methods.cancelOrder(reason, cancelledBy, refundAmount)`: sets
status `'cancelled'`, writes the cancellation record (refund status `'pending'`
when the refund is positive), and pushes a history entry. -/
def cancelOrder (o : Order) (reason : String) (cancelledBy : Nat)
    (refundAmount : ℚ) (now : Int) : Order :=
  { o with
    status := OrderStatus.cancelled
    cancellation := some
      { cancelledAt := now, cancelledBy := cancelledBy, reason := reason,
        refundAmount := refundAmount,
        refundStatus := if 0 < refundAmount then some "pending" else none }
    tracking :=
      { o.tracking with statusHistory := o.tracking.statusHistory ++
          [{ status := OrderStatus.cancelled, timestamp := now,
             updatedBy := some cancelledBy, notes := some reason,
             location := none, automatic := false }] } }

end Order

/-- Controller `updateOrderStatus` (`src/Backend/controllers/orders.js`): after
the not-found and authorization guards (authorization is delegated to the caller
layer per the spec and is outside this core), it invokes the model method
unconditionally — the controller performs no lifecycle validation of its own. -/
def updateOrderStatusCtrl (o : Order) (status : OrderStatus) (notes : Option String)
    (location : Option Location) (userId : Nat) (now : Int) : Except ApiError Order :=
  .ok (o.updateStatus status notes location userId now)

/-- Controller `assignOrder`: validates the driver (exists, role `'driver'`,
else 400 `'Invalid driver selected'`), the vehicle (exists and `'available'`,
else 400 `'Vehicle is not available'`), and capacity
(`order.cargo.totalWeight > vehicle.capacity.weight` is 400
`'Vehicle capacity insufficient for this order'`); on success binds via
`assignDriverAndVehicle` and sets the vehicle to `'assigned'` with the driver. -/
def assignOrderCtrl (order : Order) (driver : Option UserRec) (vehicle : Option Vehicle)
    (driverId vehicleId : Nat) (now : Int) : Except ApiError (Order × Vehicle) :=
  match driver with
  | none => .error ApiError.validationError
  | some d =>
    if d.role ≠ Role.driver then .error ApiError.validationError
    else
      match vehicle with
      | none => .error ApiError.vehicleUnavailable
      | some v =>
        if v.status ≠ VehicleStatus.available then .error ApiError.vehicleUnavailable
        else if v.capacityWeight < order.cargoTotalWeight then
          .error ApiError.capacityExceeded
        else
          .ok (order.assignDriverAndVehicle driverId vehicleId now,
            { v with status := VehicleStatus.assigned, assignedDriver := some driverId })

/-- Controller `cancelOrder`: rejects status `'delivered'` or `'cancelled'`
(400 `'Cannot cancel order with current status'`, the spec's `InvalidTransition`);
otherwise computes `refundAmount = totalAmount` when the status was `'pending'`
else `0`, applies the model method, and — when a vehicle is bound to the order and
found in the store — returns it to `'available'` with `assignedDriver` cleared.
`boundVehicle` stands for `Vehicle.findById(order.assignedVehicle)`. -/
def cancelOrderCtrl (order : Order) (boundVehicle : Option Vehicle) (reason : String)
    (userId : Nat) (now : Int) : Except ApiError (Order × Option Vehicle) :=
  if order.status = OrderStatus.delivered ∨ order.status = OrderStatus.cancelled then
    .error ApiError.invalidTransition
  else
    let refundAmount :=
      if order.status = OrderStatus.pending then order.pricingTotalAmount else 0
    let order2 := order.cancelOrder reason userId refundAmount now
    let vehicle2 :=
      if order.assignedVehicle.isSome then
        boundVehicle.map fun v =>
          { v with status := VehicleStatus.available, assignedDriver := none }
      else boundVehicle
    .ok (order2, vehicle2)

/-- Modelled from the spec: the Order lifecycle table of §4.1
(`pending → confirmed → processing → assigned → picked-up → in-transit →
out-for-delivery → delivered`, with `cancelled`, `returned`, `failed` reachable
from any non-terminal state; `delivered`, `cancelled`, `returned`, `failed`
terminal). No transition table exists anywhere in the source; this definition
renders the spec's words so the claimed guard can be compared with the code. -/
def specOrderTransition (fromS toS : OrderStatus) : Bool :=
  match fromS, toS with
  | OrderStatus.pending, OrderStatus.confirmed => true
  | OrderStatus.confirmed, OrderStatus.processing => true
  | OrderStatus.processing, OrderStatus.assigned => true
  | OrderStatus.assigned, OrderStatus.pickedUp => true
  | OrderStatus.pickedUp, OrderStatus.inTransit => true
  | OrderStatus.inTransit, OrderStatus.outForDelivery => true
  | OrderStatus.outForDelivery, OrderStatus.delivered => true
  | f, OrderStatus.cancelled => !(f = OrderStatus.delivered ∨ f = OrderStatus.cancelled ∨
      f = OrderStatus.returned ∨ f = OrderStatus.failed : Bool)
  | f, OrderStatus.returned => !(f = OrderStatus.delivered ∨ f = OrderStatus.cancelled ∨
      f = OrderStatus.returned ∨ f = OrderStatus.failed : Bool)
  | f, OrderStatus.failed => !(f = OrderStatus.delivered ∨ f = OrderStatus.cancelled ∨
      f = OrderStatus.returned ∨ f = OrderStatus.failed : Bool)
  | _, _ => false

/-! ## Route lifecycle manager

From `RouteSchema` in `src/Backend/models/Route.js` and
`src/Backend/controllers/routes.js`. -/

/-- Route `status` enum
(`['draft','planned','assigned','in-progress','completed','cancelled','paused']`). -/
inductive RouteStatus
  | draft
  | planned
  | assigned
  | inProgress
  | completed
  | cancelled
  | paused
deriving DecidableEq

/-- Waypoint `type` enum (`['pickup','delivery','waypoint','rest-stop','fuel-stop']`). -/
inductive WaypointType
  | pickup
  | delivery
  | waypoint
  | restStop
  | fuelStop
deriving DecidableEq

/-- A route waypoint (the fields `optimizeWaypoints` and `calculateRouteMetrics`
read or write: the 1-based `order` index, the `type` tag, and the location
coordinates). -/
structure Waypoint where
  order : Int
  type : WaypointType
  lat : ℚ
  lng : ℚ
deriving DecidableEq

/-- `optimized.map((waypoint, index) => ({...waypoint, order: index + 1}))`
unfolded as a recursion on the list with a running index `k` (the call with
`k = 1` assigns 1-based indices). -/
def assignOrdersFrom (k : Int) : List Waypoint → List Waypoint
  | [] => []
  | w :: ws => { w with order := k } :: assignOrdersFrom (k + 1) ws

/-- The filter `w => w.type === 'pickup'` of `optimizeWaypoints`. -/
def isPickup (w : Waypoint) : Bool := w.type = WaypointType.pickup

/-- The filter `w => w.type === 'delivery'` of `optimizeWaypoints`. -/
def isDelivery (w : Waypoint) : Bool := w.type = WaypointType.delivery

/-- The filter `w => !['pickup','delivery'].includes(w.type)` of
`optimizeWaypoints`. -/
def isOther (w : Waypoint) : Bool := !(isPickup w || isDelivery w)

/-- `optimizeWaypoints(waypoints)` (`src/Backend/controllers/routes.js`):
filters pickups, deliveries and the rest (preserving input order), concatenates
pickups ++ deliveries ++ others, and reassigns the 1-based `order` index. -/
def optimizeWaypoints (waypoints : List Waypoint) : List Waypoint :=
  let pickupPoints := waypoints.filter isPickup
  let deliveryPoints := waypoints.filter isDelivery
  let otherPoints := waypoints.filter isOther
  assignOrdersFrom 1 (pickupPoints ++ deliveryPoints ++ otherPoints)

/-- A waypoint with its `order` index blanked, for stating which reordering
`optimizeWaypoints` performs apart from the index reassignment. -/
def eraseOrder (w : Waypoint) : Waypoint := { w with order := 0 }

/-- The `{totalDistance, estimatedDuration, estimatedFuelCost}` triple returned
by `calculateRouteMetrics`. -/
structure RouteMetricsCalc where
  totalDistance : ℚ
  estimatedDuration : ℚ
  estimatedFuelCost : ℚ
deriving DecidableEq

/-- `calculateRouteMetrics(waypoints)`: sums the pairwise distances of
consecutive waypoints, then derives `estimatedDuration = totalDistance / 50 * 60`
(50 km/h average) and `estimatedFuelCost = totalDistance / 10 * 1.2` (10 km/l at
$1.2/l). The pairwise distance itself is `calculateDistance`, a floating-point
haversine over `Math.sin`/`Math.cos`/`Math.atan2`; it is taken as a parameter
`dist` of the embedding (the claims over these metrics hold for every `dist`). -/
def calculateRouteMetrics (dist : ℚ → ℚ → ℚ → ℚ → ℚ)
    (waypoints : List Waypoint) : RouteMetricsCalc :=
  let totalDistance :=
    (waypoints.zip waypoints.tail).foldl
      (fun acc p => acc + dist p.1.lat p.1.lng p.2.lat p.2.lng) 0
  { totalDistance := totalDistance
    estimatedDuration := totalDistance / 50 * 60
    estimatedFuelCost := totalDistance / 10 * (12 / 10) }

/-- The `scheduling` subdocument fields `completeRoute` reads or writes
(times in `Date` milliseconds). -/
structure RouteScheduling where
  plannedStartTime : Int
  plannedEndTime : Int
  actualStartTime : Option Int
  actualEndTime : Option Int
deriving DecidableEq

/-- The `metrics` fields written by `completeRoute`. -/
structure RouteMetrics where
  actualDuration : Option Int
  delayTime : Option Int
deriving DecidableEq

/-- The `completion` record written by `completeRoute`. -/
structure RouteCompletion where
  completedAt : Option Int
  completionNotes : Option String
  issues : List String
deriving DecidableEq

/-- The Route aggregate (the fields the completion lifecycle reads or writes). -/
structure Route where
  status : RouteStatus
  assignedVehicle : Option Nat
  scheduling : RouteScheduling
  metrics : RouteMetrics
  completion : RouteCompletion
deriving DecidableEq

namespace Route

/-- `RouteSchema.methods.completeRoute(notes, issues)`: sets status
`'completed'`, stamps `actualEndTime`/`completedAt`, and — when an
`actualStartTime` exists (the fresh `actualEndTime` is always truthy) — computes
`metrics.actualDuration = Math.floor((actualEnd - actualStart) / 60000)` and
`metrics.delayTime = Math.max(0, actualDuration - plannedDuration)` with
`plannedDuration = Math.floor((plannedEnd - plannedStart) / 60000)`.
`Math.floor` of the millisecond quotient is `Int.fdiv`. -/
def completeRoute (r : Route) (notes : Option String) (issues : List String)
    (now : Int) : Route :=
  let r :=
    { r with
      status := RouteStatus.completed
      scheduling := { r.scheduling with actualEndTime := some now }
      completion :=
        { completedAt := some now, completionNotes := notes, issues := issues } }
  match r.scheduling.actualStartTime with
  | some startTime =>
    let actualDuration := Int.fdiv (now - startTime) (1000 * 60)
    let plannedDuration :=
      Int.fdiv (r.scheduling.plannedEndTime - r.scheduling.plannedStartTime) (1000 * 60)
    { r with
      metrics :=
        { actualDuration := some actualDuration
          delayTime := some (max 0 (actualDuration - plannedDuration)) } }
  | none => r

end Route

/-- Controller `completeRoute` (`src/Backend/controllers/routes.js`): after the
not-found and authorization guards, rejects any status other than
`'in-progress'` (400 `'Route must be in progress to complete'`, the spec's
`InvalidTransition`); otherwise applies the model method and, when a vehicle is
bound and found, returns it to `'available'` and folds the route metrics into
the vehicle metrics (`totalTrips`, and distance/fuel when present — not modelled
here because `RouteSchema` computes neither field). `boundVehicle` stands for
`Vehicle.findById(route.assignedVehicle)`. -/
def completeRouteCtrl (route : Route) (boundVehicle : Option Vehicle)
    (notes : Option String) (issues : List String) (now : Int) :
    Except ApiError (Route × Option Vehicle) :=
  if route.status ≠ RouteStatus.inProgress then .error ApiError.invalidTransition
  else
    let route2 := route.completeRoute notes issues now
    let vehicle2 :=
      if route.assignedVehicle.isSome then
        boundVehicle.map fun v =>
          { v with
            status := VehicleStatus.available
            metrics := { v.metrics with totalTrips := v.metrics.totalTrips + 1 } }
      else boundVehicle
    .ok (route2, vehicle2)

/-! ## Concrete fixtures used by witnesses and counterexamples -/

/-- A well-formed inventory item: 10 in stock, nothing reserved. -/
def sampleItem : InventoryItem :=
  { stock := { current := 10, reserved := 0, available := 10, reorderPoint := 1 }
    status := ItemStatus.active
    movements := []
    analytics := { totalIn := 0, totalOut := 0, lastSoldDate := none } }

/-- A pending order of weight 1200 and total amount 115, nothing assigned. -/
def sampleOrder : Order :=
  { status := OrderStatus.pending
    assignedDriver := none
    assignedVehicle := none
    cargoTotalWeight := 1200
    pricingTotalAmount := 115
    tracking := { statusHistory := [], lastKnownLocation := none, actualDeliveryTime := none }
    cancellation := none }

/-- An available vehicle with weight capacity 1000. -/
def sampleVehicle : Vehicle :=
  { status := VehicleStatus.available
    assignedDriver := none
    capacityWeight := 1000
    metrics := { totalTrips := 0, totalDistance := 0, totalFuelConsumed := 0 } }

/-- A driver-directory record. -/
def sampleDriver : UserRec := { role := Role.driver }

/-- The sample order already delivered. -/
def deliveredOrder : Order :=
  { sampleOrder with status := OrderStatus.delivered }

/-- A delivered order light enough (500) for the sample vehicle. -/
def lightDeliveredOrder : Order :=
  { sampleOrder with status := OrderStatus.delivered, cargoTotalWeight := 500 }

/-- The pending sample order with vehicle 9 bound to it. -/
def boundOrder : Order :=
  { sampleOrder with assignedVehicle := some 9 }

/-- The sample vehicle while assigned to driver 4. -/
def busyVehicle : Vehicle :=
  { sampleVehicle with status := VehicleStatus.assigned, assignedDriver := some 4 }

/-- An inventory item with 10 in stock of which 5 are reserved. -/
def sampleReservedItem : InventoryItem :=
  { stock := { current := 10, reserved := 5, available := 5, reorderPoint := 1 }
    status := ItemStatus.active
    movements := []
    analytics := { totalIn := 0, totalOut := 0, lastSoldDate := none } }

/-- Reserve 5, then ship 8: a ledger run that drives `reserved` above `current`. -/
def overdrawOps : List InvOp :=
  [InvOp.reserve 5 "hold" 1 0,
   InvOp.movement MovementType.tOut 8 "ship" 1 none none 0]

/-- An in-progress route: planned 10:00-12:00, started at 10:00, with times in
milliseconds since midnight (120-minute planned window). -/
def sampleRoute : Route :=
  { status := RouteStatus.inProgress
    assignedVehicle := none
    scheduling :=
      { plannedStartTime := 36000000, plannedEndTime := 43200000,
        actualStartTime := some 36000000, actualEndTime := none }
    metrics := { actualDuration := none, delayTime := none }
    completion := { completedAt := none, completionNotes := none, issues := [] } }

/-! ## Helper lemmas -/

namespace InventoryItem

@[simp] theorem preSave_current (item : InventoryItem) :
    (preSave item).stock.current = item.stock.current := rfl

@[simp] theorem preSave_reserved (item : InventoryItem) :
    (preSave item).stock.reserved = item.stock.reserved := rfl

@[simp] theorem preSave_available (item : InventoryItem) :
    (preSave item).stock.available =
      max 0 (item.stock.current - item.stock.reserved) := rfl

@[simp] theorem preSave_movements (item : InventoryItem) :
    (preSave item).movements = item.movements := rfl

@[simp] theorem preSave_analytics (item : InventoryItem) :
    (preSave item).analytics = item.analytics := rfl

end InventoryItem

theorem releaseReservedStock_reserved (item : InventoryItem) (q : ℚ) (r : String)
    (u : Nat) (now : Int) :
    (item.releaseReservedStock q r u now).stock.reserved
      = item.stock.reserved - min q item.stock.reserved := by
  simp [InventoryItem.releaseReservedStock]

theorem releaseReservedStock_current (item : InventoryItem) (q : ℚ) (r : String)
    (u : Nat) (now : Int) :
    (item.releaseReservedStock q r u now).stock.current = item.stock.current := by
  simp [InventoryItem.releaseReservedStock]

theorem stockInv_preSave (item : InventoryItem) (h1 : 0 ≤ item.stock.current)
    (h2 : 0 ≤ item.stock.reserved) : StockInv (item.preSave) := by
  exact ⟨by simpa using h1, by simpa using h2, by simp⟩

theorem addMovementCtrl_ok {item item2 : InventoryItem} {t : MovementType} {q : ℚ}
    {r : String} {u : Nat} {ref : Option Nat} {nt : Option String} {now : Int}
    (h : addMovementCtrl item t q r u ref nt now = .ok item2) :
    item2 = item.addMovement t q r u ref nt now := by
  unfold addMovementCtrl at h
  split_ifs at h <;> simp_all

theorem reserveStockCtrl_ok {item item2 : InventoryItem} {q : ℚ} {r : String}
    {u : Nat} {now : Int} (h : reserveStockCtrl item q r u now = .ok item2) :
    0 < q ∧ item2 =
      InventoryItem.preSave
        { item with
          stock := { item.stock with reserved := item.stock.reserved + q }
          movements := item.movements ++
            [{ type := MovementType.tOut, quantity := q,
               reason := "Reserved: " ++ r, user := u,
               reference := none, notes := none, timestamp := now }] } := by
  unfold reserveStockCtrl InventoryItem.reserveStock at h
  split_ifs at h with h1 h2 <;> simp_all [lt_of_not_le h1]

theorem releaseReservedStockCtrl_ok {item item2 : InventoryItem} {q : ℚ}
    {r : String} {u : Nat} {now : Int}
    (h : releaseReservedStockCtrl item q r u now = .ok item2) :
    item2 = item.releaseReservedStock q r u now := by
  unfold releaseReservedStockCtrl at h
  split_ifs at h <;> simp_all

theorem stockInv_addMovement (item : InventoryItem) (h1 : 0 ≤ item.stock.current)
    (h2 : 0 ≤ item.stock.reserved) (t : MovementType) (q : ℚ) (r : String)
    (u : Nat) (ref : Option Nat) (nt : Option String) (now : Int) :
    StockInv (item.addMovement t q r u ref nt now) := by
  unfold InventoryItem.addMovement
  apply stockInv_preSave <;> (repeat' split) <;>
    simp_all [abs_nonneg, le_max_iff, add_nonneg, le_refl]

theorem stockInv_runInvOp (item : InventoryItem) (h : StockInv item) (op : InvOp) :
    StockInv (runInvOp item op) := by
  obtain ⟨h1, h2, h3⟩ := h
  cases op with
  | movement t q r u ref nt now =>
    simp only [runInvOp]
    cases hres : addMovementCtrl item t q r u ref nt now with
    | ok item2 =>
      show StockInv item2
      rw [addMovementCtrl_ok hres]
      exact stockInv_addMovement item h1 h2 t q r u ref nt now
    | error e => exact ⟨h1, h2, h3⟩
  | reserve q r u now =>
    simp only [runInvOp]
    cases hres : reserveStockCtrl item q r u now with
    | ok item2 =>
      show StockInv item2
      obtain ⟨hq, rfl⟩ := reserveStockCtrl_ok hres
      exact stockInv_preSave _ (by simpa using h1)
        (by simpa using add_nonneg h2 hq.le)
    | error e => exact ⟨h1, h2, h3⟩
  | release q r u now =>
    simp only [runInvOp]
    cases hres : releaseReservedStockCtrl item q r u now with
    | ok item2 =>
      show StockInv item2
      rw [releaseReservedStockCtrl_ok hres]
      unfold InventoryItem.releaseReservedStock
      exact stockInv_preSave _ (by simpa using h1)
        (by simpa using sub_nonneg.mpr (min_le_right q item.stock.reserved))
    | error e => exact ⟨h1, h2, h3⟩

/-! ## Claims about the Inventory ledger -/

/-- C3: for every `addMovement` call with `quantity > 0`: an increase kind
(`in`, or `adjustment` with positive quantity) adds the quantity to
`stock.current` and to `analytics.totalIn`; a decrease kind (`out`, `damaged`,
`expired`, `lost`; a negative `adjustment` is impossible with `quantity > 0`)
fails with `InsufficientStock` when the quantity exceeds `stock.current` (the
guard precedes the mutation, so the item is unchanged) and otherwise subtracts
exactly the quantity from `stock.current` and adds it to `analytics.totalOut`;
every successful call appends exactly one ledger entry. -/
theorem addMovement_increase_decrease_spec (item : InventoryItem) (t : MovementType)
    (q : ℚ) (r : String) (u : Nat) (ref : Option Nat) (nt : Option String)
    (now : Int) (hq : 0 < q) :
    ((t = MovementType.tIn ∨ t = MovementType.adjustment) →
      ∃ item2, addMovementCtrl item t q r u ref nt now = .ok item2 ∧
        item2.stock.current = item.stock.current + q ∧
        item2.movements = item.movements ++
          [{ type := t, quantity := q, reason := r, user := u, reference := ref,
             notes := nt, timestamp := now }] ∧
        item2.analytics.totalIn = item.analytics.totalIn + q ∧
        item2.analytics.totalOut = item.analytics.totalOut)
    ∧ ((t = MovementType.tOut ∨ t = MovementType.damaged ∨
        t = MovementType.expired ∨ t = MovementType.lost) →
      (item.stock.current < q →
        addMovementCtrl item t q r u ref nt now = .error ApiError.insufficientStock)
      ∧ (q ≤ item.stock.current →
        ∃ item2, addMovementCtrl item t q r u ref nt now = .ok item2 ∧
          item2.stock.current = item.stock.current - q ∧
          item2.movements = item.movements ++
            [{ type := t, quantity := q, reason := r, user := u, reference := ref,
               notes := nt, timestamp := now }] ∧
          item2.analytics.totalOut = item.analytics.totalOut + q ∧
          item2.analytics.totalIn = item.analytics.totalIn)) := by
  have habs : |q| = q := abs_of_pos hq
  have hq0 : ¬ q ≤ 0 := not_le.mpr hq
  constructor
  · rintro (rfl | rfl)
    · refine ⟨item.addMovement MovementType.tIn q r u ref nt now, ?_, ?_, ?_, ?_, ?_⟩ <;>
        simp [addMovementCtrl, InventoryItem.addMovement, decreaseKind, hq0, habs]
    · refine ⟨item.addMovement MovementType.adjustment q r u ref nt now,
        ?_, ?_, ?_, ?_, ?_⟩ <;>
        simp [addMovementCtrl, InventoryItem.addMovement, decreaseKind, hq0, habs, hq,
          hq.not_lt]
  · have key : ∀ t2 : MovementType,
        (t2 = MovementType.tOut ∨ t2 = MovementType.damaged ∨
          t2 = MovementType.expired ∨ t2 = MovementType.lost) →
        (item.stock.current < q →
          addMovementCtrl item t2 q r u ref nt now = .error ApiError.insufficientStock)
        ∧ (q ≤ item.stock.current →
          ∃ item2, addMovementCtrl item t2 q r u ref nt now = .ok item2 ∧
            item2.stock.current = item.stock.current - q ∧
            item2.movements = item.movements ++
              [{ type := t2, quantity := q, reason := r, user := u, reference := ref,
                 notes := nt, timestamp := now }] ∧
            item2.analytics.totalOut = item.analytics.totalOut + q ∧
            item2.analytics.totalIn = item.analytics.totalIn) := by
      intro t2 ht2
      have hninc : ¬(t2 = MovementType.tIn ∨ (t2 = MovementType.adjustment ∧ 0 < q)) := by
        rcases ht2 with rfl | rfl | rfl | rfl <;> simp
      have hdec : decreaseKind t2 q := by
        rcases ht2 with rfl | rfl | rfl | rfl <;> simp [decreaseKind]
      constructor
      · intro hlt
        have hcond : decreaseKind t2 q ∧ item.stock.current < |q| :=
          ⟨hdec, by rwa [habs]⟩
        simp [addMovementCtrl, hq0, hcond]
      · intro hle
        have hcond : ¬(decreaseKind t2 q ∧ item.stock.current < |q|) := by
          rw [habs]; exact fun h => absurd h.2 hle.not_lt
        have hok : addMovementCtrl item t2 q r u ref nt now =
            .ok (item.addMovement t2 q r u ref nt now) := by
          simp [addMovementCtrl, hq0, hcond]
        have hmax : max 0 (item.stock.current - |q|) = item.stock.current - q := by
          rw [habs]; exact max_eq_right (sub_nonneg.mpr hle)
        have hdec2 := hdec
        unfold decreaseKind at hdec2
        refine ⟨_, hok, ?_, ?_, ?_, ?_⟩ <;>
        · simp only [InventoryItem.addMovement, if_neg hninc, if_pos hdec2]
          split <;> simp [hmax, habs, hle]
    exact key t

/-- Witness for C3: on the 10-in-stock sample item, an `out` movement of 30 is
rejected with `InsufficientStock` and an `out` movement of 3 succeeds, leaving
7 in stock. -/
theorem addMovement_increase_decrease_spec_witness :
    addMovementCtrl sampleItem MovementType.tOut 30 "m" 7 none none 5 =
        .error ApiError.insufficientStock ∧
      ∃ item2, addMovementCtrl sampleItem MovementType.tOut 3 "m" 7 none none 5 =
          .ok item2 ∧ item2.stock.current = 7 := by
  have h30 := addMovement_increase_decrease_spec sampleItem MovementType.tOut 30
    "m" 7 none none 5 (by norm_num)
  have h3 := addMovement_increase_decrease_spec sampleItem MovementType.tOut 3
    "m" 7 none none 5 (by norm_num)
  refine ⟨(h30.2 (Or.inl rfl)).1 (by norm_num [sampleItem]), ?_⟩
  obtain ⟨item2, hok, hcur, -, -, -⟩ := (h3.2 (Or.inl rfl)).2 (by norm_num [sampleItem])
  exact ⟨item2, hok, by rw [hcur]; norm_num [sampleItem]⟩

/-- C2 counterexample: the operation sequence "reserve 5, then move 8 out" is
accepted from a fresh 10-in-stock item (the outbound guard compares against
`stock.current`, not `available`), after which `stock.available = 0` while
`stock.current - stock.reserved = 2 - 5 = -3`: the claimed invariant
`available = current - reserved` does not hold after every operation. -/
theorem stock_equation_counterexample :
    (runInvOps sampleItem overdrawOps).stock.available ≠
      (runInvOps sampleItem overdrawOps).stock.current -
        (runInvOps sampleItem overdrawOps).stock.reserved := by
  norm_num [runInvOps, overdrawOps, runInvOp, reserveStockCtrl,
    InventoryItem.reserveStock, InventoryItem.stockAvailable, addMovementCtrl,
    decreaseKind, InventoryItem.addMovement, sampleItem, InventoryItem.preSave]
  rw [if_neg (by simp)]
  norm_num

/-- C2 amended: after every sequence of ledger operations (failing operations
leave the item unchanged), the state satisfies `stock.current ≥ 0`,
`stock.reserved ≥ 0`, and `stock.available = max 0 (current - reserved)`
(hence `available ≥ 0`); the unclamped equation `available = current - reserved`
holds only while `reserved ≤ current`. -/
theorem stock_invariant_preserved (item : InventoryItem) (h : StockInv item)
    (ops : List InvOp) : StockInv (runInvOps item ops) := by
  induction ops generalizing item with
  | nil => exact h
  | cons op ops ih => exact ih _ (stockInv_runInvOp item h op)

/-- Witness for the amended C2: the invariant holds for the sample item and is
preserved across the overdraw run. -/
theorem stock_invariant_preserved_witness :
    StockInv (runInvOps sampleItem overdrawOps) :=
  stock_invariant_preserved sampleItem
    (by refine ⟨?_, ?_, ?_⟩ <;> norm_num [sampleItem, StockInv]) overdrawOps

/-- C4 counterexample: on an item with `reserved = 5`, releasing 6 through the
exposed `releaseReservedStock` operation is rejected
(`'Cannot release more than reserved quantity'`, a 400 error) rather than being
clamped to the reserved amount as the claim states. -/
theorem release_clamp_counterexample :
    releaseReservedStockCtrl sampleReservedItem 6 "undo" 1 0 =
      .error ApiError.validationError := by
  norm_num [releaseReservedStockCtrl, sampleReservedItem]

/-- C4 amended: the model method `releaseReservedStock` decrements
`stock.reserved` by `min(quantity, reserved)` without error (so a release of
more than the reserved amount clamps to zero, and repeating it has no further
effect on the stock fields); the controller, however, rejects
`quantity > stock.reserved` with an error before invoking the method, and for
`0 < quantity ≤ reserved` decrements `reserved` by exactly the quantity. -/
theorem releaseReservedStock_clamp_spec (item : InventoryItem) (q : ℚ)
    (r : String) (u : Nat) (now : Int) :
    ((item.releaseReservedStock q r u now).stock.reserved
        = item.stock.reserved - min q item.stock.reserved
      ∧ (item.releaseReservedStock q r u now).stock.current = item.stock.current)
    ∧ (0 ≤ item.stock.reserved → item.stock.reserved ≤ q →
        (item.releaseReservedStock q r u now).stock.reserved = 0
        ∧ ((item.releaseReservedStock q r u now).releaseReservedStock q r u
              now).stock.reserved = 0
        ∧ ((item.releaseReservedStock q r u now).releaseReservedStock q r u
              now).stock.current = item.stock.current)
    ∧ (0 < q → item.stock.reserved < q →
        releaseReservedStockCtrl item q r u now = .error ApiError.validationError)
    ∧ (0 < q → q ≤ item.stock.reserved →
        ∃ item2, releaseReservedStockCtrl item q r u now = .ok item2 ∧
          item2.stock.reserved = item.stock.reserved - q ∧
          item2.stock.current = item.stock.current) := by
  refine ⟨⟨releaseReservedStock_reserved item q r u now,
    releaseReservedStock_current item q r u now⟩, ?_, ?_, ?_⟩
  · intro h0 hle
    have hmin : min q item.stock.reserved = item.stock.reserved := min_eq_right hle
    have hfirst : (item.releaseReservedStock q r u now).stock.reserved = 0 := by
      rw [releaseReservedStock_reserved, hmin, sub_self]
    refine ⟨hfirst, ?_, ?_⟩
    · rw [releaseReservedStock_reserved, hfirst]
      simp [min_eq_right (le_trans h0 hle)]
    · rw [releaseReservedStock_current, releaseReservedStock_current]
  · intro hq hlt
    simp [releaseReservedStockCtrl, not_le.mpr hq, hlt]
  · intro hq hle
    refine ⟨item.releaseReservedStock q r u now, ?_, ?_, ?_⟩
    · simp [releaseReservedStockCtrl, not_le.mpr hq, hle.not_lt]
    · rw [releaseReservedStock_reserved, min_eq_left hle]
    · exact releaseReservedStock_current item q r u now

/-- Witness for the amended C4: on the 5-reserved sample item, the model method
clamps a release of 7 to zero reserved, while the controller rejects releasing 6
and accepts releasing 2 (leaving 3 reserved). -/
theorem releaseReservedStock_clamp_spec_witness :
    (sampleReservedItem.releaseReservedStock 7 "undo" 1 0).stock.reserved = 0 ∧
      releaseReservedStockCtrl sampleReservedItem 6 "undo" 1 0 =
        .error ApiError.validationError ∧
      ∃ item2, releaseReservedStockCtrl sampleReservedItem 2 "undo" 1 0 =
          .ok item2 ∧ item2.stock.reserved = 3 := by
  have h7 := releaseReservedStock_clamp_spec sampleReservedItem 7 "undo" 1 0
  have h6 := releaseReservedStock_clamp_spec sampleReservedItem 6 "undo" 1 0
  have h2 := releaseReservedStock_clamp_spec sampleReservedItem 2 "undo" 1 0
  refine ⟨((h7.2.1 (by norm_num [sampleReservedItem])
      (by norm_num [sampleReservedItem]))).1, ?_, ?_⟩
  · exact h6.2.2.1 (by norm_num) (by norm_num [sampleReservedItem])
  · obtain ⟨item2, hok, hres, -⟩ :=
      h2.2.2.2 (by norm_num) (by norm_num [sampleReservedItem])
    exact ⟨item2, hok, by rw [hres]; norm_num [sampleReservedItem]⟩

/-- C10: a successful model-level `reserveStock(quantity, reason, user)` call
leaves `stock.current` untouched, adds the quantity to `stock.reserved`, and
appends exactly one movement of type `'out'` with that quantity and the reason
prefixed `"Reserved: "`, while `analytics` (in particular `totalOut`) is not
updated. -/
theorem reserveStock_ledger_spec (item : InventoryItem) (q : ℚ) (r : String)
    (u : Nat) (now : Int) (h : q ≤ item.stockAvailable) :
    ∃ item2, item.reserveStock q r u now = .ok item2 ∧
      item2.stock.current = item.stock.current ∧
      item2.stock.reserved = item.stock.reserved + q ∧
      item2.movements = item.movements ++
        [{ type := MovementType.tOut, quantity := q, reason := "Reserved: " ++ r,
           user := u, reference := none, notes := none, timestamp := now }] ∧
      item2.analytics = item.analytics := by
  refine ⟨InventoryItem.preSave
    { item with
      stock := { item.stock with reserved := item.stock.reserved + q }
      movements := item.movements ++
        [{ type := MovementType.tOut, quantity := q,
           reason := "Reserved: " ++ r, user := u,
           reference := none, notes := none, timestamp := now }] },
    ?_, ?_, ?_, ?_, ?_⟩ <;>
    simp [InventoryItem.reserveStock, not_lt.mpr h]

/-- Witness for C10: reserving 4 of the 10-available sample item keeps
`current = 10`, sets `reserved = 4`, and leaves the analytics untouched. -/
theorem reserveStock_ledger_spec_witness :
    ∃ item2, sampleItem.reserveStock 4 "order-77" 9 3 = .ok item2 ∧
      item2.stock.current = 10 ∧ item2.stock.reserved = 4 ∧
      item2.analytics = sampleItem.analytics := by
  obtain ⟨item2, hok, hcur, hres, -, hana⟩ :=
    reserveStock_ledger_spec sampleItem 4 "order-77" 9 3
      (by norm_num [sampleItem, InventoryItem.stockAvailable])
  exact ⟨item2, hok, by rw [hcur]; norm_num [sampleItem],
    by rw [hres]; norm_num [sampleItem], hana⟩

/-! ## Claims about the Order lifecycle manager -/

/-- C1 counterexample: `delivered → pending` is not reachable under the spec's
lifecycle table, yet `updateOrderStatus` on a delivered order succeeds (no
`InvalidTransition`) and sets the status to `pending`: neither the model method
nor the controller contains any transition validation. -/
theorem order_transition_counterexample :
    specOrderTransition OrderStatus.delivered OrderStatus.pending = false ∧
      updateOrderStatusCtrl deliveredOrder OrderStatus.pending none none 1 0 =
        .ok (deliveredOrder.updateStatus OrderStatus.pending none none 1 0) ∧
      (deliveredOrder.updateStatus OrderStatus.pending none none 1 0).status =
        OrderStatus.pending := by
  refine ⟨rfl, rfl, rfl⟩

/-- C1 amended: `updateOrderStatus` performs no lifecycle validation — for every
order and every requested status it succeeds, sets the status, appends one
history entry carrying status, timestamp, actor, notes and location, updates the
last known location when a location is given, and records the actual delivery
time exactly when the new status is `delivered`. -/
theorem updateStatus_no_validation_spec (o : Order) (s : OrderStatus)
    (notes : Option String) (loc : Option Location) (u : Nat) (now : Int) :
    ∃ o2, updateOrderStatusCtrl o s notes loc u now = .ok o2 ∧
      o2.status = s ∧
      o2.tracking.statusHistory = o.tracking.statusHistory ++
        [{ status := s, timestamp := now, updatedBy := some u, notes := notes,
           location := loc, automatic := false }] ∧
      (s = OrderStatus.delivered → o2.tracking.actualDeliveryTime = some now) ∧
      (s ≠ OrderStatus.delivered →
        o2.tracking.actualDeliveryTime = o.tracking.actualDeliveryTime) ∧
      o2.tracking.lastKnownLocation =
        (match loc with
          | some l => some { location := l, timestamp := now }
          | none => o.tracking.lastKnownLocation) := by
  refine ⟨o.updateStatus s notes loc u now, rfl, ?_, ?_, ?_, ?_, ?_⟩ <;>
  · unfold Order.updateStatus
    cases loc <;> split_ifs <;> simp_all

/-- C5 counterexample: a `delivered` order (weight 500) is assigned successfully
to a valid driver and an available 1000-capacity vehicle — the controller never
checks that the order's status is `pending` or `confirmed`, so the claimed
precondition is not enforced. -/
theorem assign_precondition_counterexample :
    ¬(lightDeliveredOrder.status = OrderStatus.pending ∨
        lightDeliveredOrder.status = OrderStatus.confirmed) ∧
      assignOrderCtrl lightDeliveredOrder (some sampleDriver) (some sampleVehicle)
          4 9 0 =
        .ok (lightDeliveredOrder.assignDriverAndVehicle 4 9 0,
          { sampleVehicle with status := VehicleStatus.assigned, assignedDriver := some 4 }) ∧
      (lightDeliveredOrder.assignDriverAndVehicle 4 9 0).status =
        OrderStatus.assigned := by
  refine ⟨by simp [lightDeliveredOrder, sampleOrder], ?_, rfl⟩
  norm_num [assignOrderCtrl, sampleDriver, sampleVehicle, lightDeliveredOrder,
    sampleOrder]

/-- C5 amended: `assignOrder` checks the driver, the vehicle's availability and
the capacity, but never the order's status. With a valid driver and an available
vehicle: when `cargo.totalWeight > capacity.weight` it fails with
`CapacityExceeded` before any mutation (so neither record changes), and
otherwise — for any order status — it succeeds, setting the order to `assigned`
with an automatic history entry and the vehicle to `assigned` with
`assignedDriver` set. -/
theorem assignOrder_checks_spec (order : Order) (d : UserRec) (v : Vehicle)
    (driverId vehicleId : Nat) (now : Int)
    (hd : d.role = Role.driver) (hv : v.status = VehicleStatus.available) :
    (v.capacityWeight < order.cargoTotalWeight →
      assignOrderCtrl order (some d) (some v) driverId vehicleId now =
        .error ApiError.capacityExceeded)
    ∧ (order.cargoTotalWeight ≤ v.capacityWeight →
      assignOrderCtrl order (some d) (some v) driverId vehicleId now =
        .ok (order.assignDriverAndVehicle driverId vehicleId now,
          { v with status := VehicleStatus.assigned, assignedDriver := some driverId }) ∧
      (order.assignDriverAndVehicle driverId vehicleId now).status =
          OrderStatus.assigned ∧
      (order.assignDriverAndVehicle driverId vehicleId now).assignedDriver =
          some driverId ∧
      (order.assignDriverAndVehicle driverId vehicleId now).assignedVehicle =
          some vehicleId ∧
      (order.assignDriverAndVehicle driverId vehicleId now).tracking.statusHistory =
        order.tracking.statusHistory ++
          [{ status := OrderStatus.assigned, timestamp := now, updatedBy := none,
             notes := none, location := none, automatic := true }]) := by
  constructor
  · intro hlt
    simp [assignOrderCtrl, hd, hv, hlt]
  · intro hle
    refine ⟨by simp [assignOrderCtrl, hd, hv, hle.not_lt], ?_, ?_, ?_, ?_⟩ <;>
      simp [Order.assignDriverAndVehicle]

/-- Witness for the amended C5: the 1200-weight sample order against the
1000-capacity vehicle fails with `CapacityExceeded`, while the 500-weight
delivered order is assigned. -/
theorem assignOrder_checks_spec_witness :
    assignOrderCtrl sampleOrder (some sampleDriver) (some sampleVehicle) 4 9 0 =
        .error ApiError.capacityExceeded ∧
      assignOrderCtrl lightDeliveredOrder (some sampleDriver) (some sampleVehicle)
          4 9 0 =
        .ok (lightDeliveredOrder.assignDriverAndVehicle 4 9 0,
          { sampleVehicle with status := VehicleStatus.assigned, assignedDriver := some 4 }) := by
  have h1 := assignOrder_checks_spec sampleOrder sampleDriver sampleVehicle 4 9 0
    rfl rfl
  have h2 := assignOrder_checks_spec lightDeliveredOrder sampleDriver sampleVehicle
    4 9 0 rfl rfl
  exact ⟨h1.1 (by norm_num [sampleOrder, sampleVehicle]),
    (h2.2 (by norm_num [lightDeliveredOrder, sampleOrder, sampleVehicle])).1⟩

/-- C6: `cancelOrder` fails with `InvalidTransition` when the order is
`delivered` or already `cancelled`; otherwise it cancels the order with
`refundAmount = pricing.totalAmount` for a `pending` order and `0` for every
other status, records the cancellation metadata (time, actor, reason), and —
when a vehicle is bound to the order and found in the store — returns it to
`available` with `assignedDriver` cleared. -/
theorem cancelOrder_spec (order : Order) (bv : Option Vehicle) (reason : String)
    (u : Nat) (now : Int) :
    ((order.status = OrderStatus.delivered ∨ order.status = OrderStatus.cancelled) →
      cancelOrderCtrl order bv reason u now = .error ApiError.invalidTransition)
    ∧ (¬(order.status = OrderStatus.delivered ∨
          order.status = OrderStatus.cancelled) →
      ∃ o2 v2, cancelOrderCtrl order bv reason u now = .ok (o2, v2) ∧
        o2.status = OrderStatus.cancelled ∧
        (∃ c, o2.cancellation = some c ∧
          c.refundAmount =
            (if order.status = OrderStatus.pending then order.pricingTotalAmount
             else 0) ∧
          c.cancelledAt = now ∧ c.cancelledBy = u ∧ c.reason = reason) ∧
        (∀ v, order.assignedVehicle.isSome → bv = some v →
          v2 = some { v with status := VehicleStatus.available, assignedDriver := none }) ∧
        (order.assignedVehicle = none → v2 = bv)) := by
  constructor
  · intro h
    simp [cancelOrderCtrl, h]
  · intro h
    refine ⟨order.cancelOrder reason u
        (if order.status = OrderStatus.pending then order.pricingTotalAmount else 0)
        now,
      (if order.assignedVehicle.isSome then
        bv.map fun v =>
          { v with status := VehicleStatus.available, assignedDriver := none }
       else bv), ?_, ?_, ?_, ?_, ?_⟩
    · simp [cancelOrderCtrl, h]
    · simp [Order.cancelOrder]
    · exact ⟨_, rfl, rfl, rfl, rfl, rfl⟩
    · intro v hsome hbv
      simp [hsome, hbv]
    · intro hnone
      simp [hnone]

/-- Witness for C6: cancelling the pending 115-amount order with vehicle 9 bound
refunds 115 and frees the vehicle; cancelling a delivered order fails with
`InvalidTransition`. -/
theorem cancelOrder_spec_witness :
    cancelOrderCtrl deliveredOrder (some busyVehicle) "late" 2 50 =
        .error ApiError.invalidTransition ∧
      ∃ o2 v2, cancelOrderCtrl boundOrder (some busyVehicle) "late" 2 50 =
          .ok (o2, v2) ∧
        (∃ c, o2.cancellation = some c ∧ c.refundAmount = 115) ∧
        v2 = some { busyVehicle with status := VehicleStatus.available, assignedDriver := none } := by
  have hdel := cancelOrder_spec deliveredOrder (some busyVehicle) "late" 2 50
  have hpen := cancelOrder_spec boundOrder (some busyVehicle) "late" 2 50
  refine ⟨hdel.1 (Or.inl rfl), ?_⟩
  obtain ⟨o2, v2, hok, -, ⟨c, hc, hamt, -, -, -⟩, hv, -⟩ :=
    hpen.2 (by simp [boundOrder, sampleOrder])
  refine ⟨o2, v2, hok, ⟨c, hc, ?_⟩, hv busyVehicle rfl rfl⟩
  rw [hamt]
  norm_num [boundOrder, sampleOrder]

/-! ## Claims about the Route lifecycle manager -/

/-- C9: `completeRoute` fails with `InvalidTransition` unless the route's status
is `in-progress`; on success (with a started route, i.e. `actualStartTime` set)
it sets status `completed` and computes
`metrics.actualDuration = floor((now - actualStart) / 60000)` whole minutes and
`metrics.delayTime = max(0, actualDuration - plannedDuration)` where
`plannedDuration = floor((plannedEnd - plannedStart) / 60000)`. -/
theorem completeRoute_metrics_spec (route : Route) (bv : Option Vehicle)
    (notes : Option String) (issues : List String) (now startTime : Int)
    (hstart : route.scheduling.actualStartTime = some startTime) :
    (route.status ≠ RouteStatus.inProgress →
      completeRouteCtrl route bv notes issues now = .error ApiError.invalidTransition)
    ∧ (route.status = RouteStatus.inProgress →
      ∃ r2 v2, completeRouteCtrl route bv notes issues now = .ok (r2, v2) ∧
        r2.status = RouteStatus.completed ∧
        r2.metrics.actualDuration = some (Int.fdiv (now - startTime) 60000) ∧
        r2.metrics.delayTime = some (max 0 (Int.fdiv (now - startTime) 60000 -
          Int.fdiv (route.scheduling.plannedEndTime -
            route.scheduling.plannedStartTime) 60000))) := by
  constructor
  · intro h
    simp [completeRouteCtrl, h]
  · intro h
    have hok : completeRouteCtrl route bv notes issues now =
        .ok (route.completeRoute notes issues now,
          if route.assignedVehicle.isSome then
            bv.map fun v =>
              { v with
                status := VehicleStatus.available
                metrics := { v.metrics with totalTrips := v.metrics.totalTrips + 1 } }
          else bv) := by
      simp [completeRouteCtrl, h]
    refine ⟨route.completeRoute notes issues now, _, hok, ?_, ?_, ?_⟩ <;>
      simp [Route.completeRoute, hstart] <;> norm_num

/-- Witness for C9 (the spec's worked example): a route planned for 120 minutes,
started at 10:00 and completed at 12:30, gets `actualDuration = 150` and
`delayTime = 30`. -/
theorem completeRoute_metrics_spec_witness :
    ∃ r2 v2, completeRouteCtrl sampleRoute none none [] 45000000 = .ok (r2, v2) ∧
      r2.status = RouteStatus.completed ∧
      r2.metrics.actualDuration = some 150 ∧
      r2.metrics.delayTime = some 30 := by
  obtain ⟨r2, v2, hok, hst, hdur, hdel⟩ :=
    (completeRoute_metrics_spec sampleRoute none none [] 45000000 36000000
      rfl).2 rfl
  refine ⟨r2, v2, hok, hst, ?_, ?_⟩
  · rw [hdur]; rfl
  · rw [hdel]; rfl

/-! ### Waypoint-reindexing lemmas -/

theorem assignOrdersFrom_map_eraseOrder (k : Int) (xs : List Waypoint) :
    (assignOrdersFrom k xs).map eraseOrder = xs.map eraseOrder := by
  induction xs generalizing k with
  | nil => rfl
  | cons w t ih => simp [assignOrdersFrom, ih (k + 1), eraseOrder]

theorem assignOrdersFrom_map_order (k : Int) (xs : List Waypoint) :
    (assignOrdersFrom k xs).map Waypoint.order =
      (List.range xs.length).map (fun i : Nat => k + (i : Int)) := by
  induction xs generalizing k with
  | nil => rfl
  | cons w t ih =>
    simp only [assignOrdersFrom, List.map_cons, ih (k + 1), List.length_cons,
      List.range_succ_eq_map, List.map_map]
    rw [List.cons.injEq]
    constructor
    · simp
    · exact List.map_congr_left fun i _ => by
        simp only [Function.comp]; push_cast; ring

theorem assignOrdersFrom_append (k : Int) (xs ys : List Waypoint) :
    assignOrdersFrom k (xs ++ ys) =
      assignOrdersFrom k xs ++ assignOrdersFrom (k + xs.length) ys := by
  induction xs generalizing k with
  | nil => simp [assignOrdersFrom]
  | cons w t ih =>
    show { w with order := k } :: assignOrdersFrom (k + 1) (t ++ ys) =
      ({ w with order := k } :: assignOrdersFrom (k + 1) t) ++
        assignOrdersFrom (k + ((t.length + 1 : Nat) : Int)) ys
    rw [List.cons_append, ih (k + 1)]
    have harith : (k + 1) + (t.length : Int) = k + ((t.length + 1 : Nat) : Int) := by
      push_cast; ring
    rw [harith]

theorem assignOrdersFrom_idem (k : Int) (xs : List Waypoint) :
    assignOrdersFrom k (assignOrdersFrom k xs) = assignOrdersFrom k xs := by
  induction xs generalizing k with
  | nil => rfl
  | cons w t ih => simp [assignOrdersFrom, ih (k + 1)]

theorem filter_assignOrdersFrom_all (p : Waypoint → Bool)
    (hp : ∀ w k2, p { w with order := k2 } = p w) (k : Int) {xs : List Waypoint}
    (h : ∀ w ∈ xs, p w = true) :
    (assignOrdersFrom k xs).filter p = assignOrdersFrom k xs := by
  induction xs generalizing k with
  | nil => rfl
  | cons w t ih =>
    rw [assignOrdersFrom, List.filter_cons_of_pos
        (by rw [hp]; exact h w (List.mem_cons_self w t)),
      ih (k + 1) fun w2 h2 => h w2 (List.mem_cons_of_mem _ h2)]

theorem filter_assignOrdersFrom_none (p : Waypoint → Bool)
    (hp : ∀ w k2, p { w with order := k2 } = p w) (k : Int) {xs : List Waypoint}
    (h : ∀ w ∈ xs, p w = false) :
    (assignOrdersFrom k xs).filter p = [] := by
  induction xs generalizing k with
  | nil => rfl
  | cons w t ih =>
    rw [assignOrdersFrom, List.filter_cons_of_neg
        (by rw [hp]; simp [h w (List.mem_cons_self w t)]),
      ih (k + 1) fun w2 h2 => h w2 (List.mem_cons_of_mem _ h2)]

theorem filter_partition_length (ws : List Waypoint) :
    (ws.filter isPickup).length +
      ((ws.filter isDelivery).length + (ws.filter isOther).length) = ws.length := by
  induction ws with
  | nil => rfl
  | cons w t ih =>
    cases htype : w.type <;>
      simp [List.filter_cons, isPickup, isDelivery, isOther, htype] <;> omega

/-- C7: `optimizeWaypoints` outputs exactly the pickup-type waypoints, then the
delivery-type waypoints, then the remaining waypoints — each group in its input
relative order (the three filters preserve order) — and assigns the output
consecutive 1-based `order` indices `1..n`: apart from the `order` field the
output is the concatenation of the three filters, and the `order` fields are
`1, 2, …, n`. -/
theorem optimize_partition_spec (ws : List Waypoint) :
    (optimizeWaypoints ws).map eraseOrder =
      (ws.filter isPickup ++ ws.filter isDelivery ++ ws.filter isOther).map
        eraseOrder
    ∧ (optimizeWaypoints ws).map Waypoint.order =
      (List.range ws.length).map (fun i : Nat => (i : Int) + 1) := by
  constructor
  · exact assignOrdersFrom_map_eraseOrder 1 _
  · show (assignOrdersFrom 1 _).map Waypoint.order = _
    rw [assignOrdersFrom_map_order]
    have hlen :
        (ws.filter isPickup ++ (ws.filter isDelivery ++ ws.filter isOther)).length =
          ws.length := by
      simp only [List.length_append]
      exact filter_partition_length ws
    rw [show (ws.filter isPickup ++ ws.filter isDelivery ++ ws.filter isOther) =
        (ws.filter isPickup ++ (ws.filter isDelivery ++ ws.filter isOther)) from
      List.append_assoc _ _ _, hlen]
    exact List.map_congr_left fun i _ => by ring

/-- C8: `optimizeWaypoints` is idempotent — its output is a fixed point — and
therefore `calculateRouteMetrics` (for any pairwise distance function, covering
the floating-point haversine) returns identical `totalDistance`,
`estimatedDuration` and `estimatedFuelCost` on the once- and twice-optimized
waypoint lists. -/
theorem optimize_idempotent_spec (dist : ℚ → ℚ → ℚ → ℚ → ℚ)
    (ws : List Waypoint) :
    optimizeWaypoints (optimizeWaypoints ws) = optimizeWaypoints ws ∧
      calculateRouteMetrics dist (optimizeWaypoints (optimizeWaypoints ws)) =
        calculateRouteMetrics dist (optimizeWaypoints ws) := by
  have hfix : optimizeWaypoints (optimizeWaypoints ws) = optimizeWaypoints ws := by
    have hpP : ∀ (w : Waypoint) (k2 : Int), isPickup { w with order := k2 } = isPickup w :=
      fun w k2 => rfl
    have hpD : ∀ (w : Waypoint) (k2 : Int), isDelivery { w with order := k2 } = isDelivery w :=
      fun w k2 => rfl
    have hpO : ∀ (w : Waypoint) (k2 : Int), isOther { w with order := k2 } = isOther w :=
      fun w k2 => rfl
    set P := ws.filter isPickup with hP
    set D := ws.filter isDelivery with hD
    set O := ws.filter isOther with hO
    have hPall : ∀ w ∈ P, isPickup w = true := fun w hw => List.of_mem_filter hw
    have hDall : ∀ w ∈ D, isDelivery w = true := fun w hw => List.of_mem_filter hw
    have hOall : ∀ w ∈ O, isOther w = true := fun w hw => List.of_mem_filter hw
    have hDnotP : ∀ w ∈ D, isPickup w = false := by
      intro w hw
      have := hDall w hw
      simp [isDelivery] at this
      simp [isPickup, this]
    have hOnotP : ∀ w ∈ O, isPickup w = false := by
      intro w hw
      have := hOall w hw
      simp [isOther] at this
      exact this.1
    have hPnotD : ∀ w ∈ P, isDelivery w = false := by
      intro w hw
      have := hPall w hw
      simp [isPickup] at this
      simp [isDelivery, this]
    have hOnotD : ∀ w ∈ O, isDelivery w = false := by
      intro w hw
      have := hOall w hw
      simp [isOther] at this
      exact this.2
    have hPnotO : ∀ w ∈ P, isOther w = false := by
      intro w hw
      have := hPall w hw
      simp [isOther, this]
    have hDnotO : ∀ w ∈ D, isOther w = false := by
      intro w hw
      have := hDall w hw
      simp [isOther, this]
    have hsplit : optimizeWaypoints ws =
        assignOrdersFrom 1 P ++
          (assignOrdersFrom (1 + (P.length : Int)) D ++
            assignOrdersFrom (1 + (P.length : Int) + (D.length : Int)) O) := by
      show assignOrdersFrom 1 (P ++ D ++ O) = _
      rw [List.append_assoc, assignOrdersFrom_append, assignOrdersFrom_append]
    have hfP : (optimizeWaypoints ws).filter isPickup = assignOrdersFrom 1 P := by
      rw [hsplit, List.filter_append, List.filter_append,
        filter_assignOrdersFrom_all isPickup hpP 1 hPall,
        filter_assignOrdersFrom_none isPickup hpP _ hDnotP,
        filter_assignOrdersFrom_none isPickup hpP _ hOnotP,
        List.append_nil, List.append_nil]
    have hfD : (optimizeWaypoints ws).filter isDelivery =
        assignOrdersFrom (1 + (P.length : Int)) D := by
      rw [hsplit, List.filter_append, List.filter_append,
        filter_assignOrdersFrom_none isDelivery hpD _ hPnotD,
        filter_assignOrdersFrom_all isDelivery hpD _ hDall,
        filter_assignOrdersFrom_none isDelivery hpD _ hOnotD,
        List.append_nil, List.nil_append]
    have hfO : (optimizeWaypoints ws).filter isOther =
        assignOrdersFrom (1 + (P.length : Int) + (D.length : Int)) O := by
      rw [hsplit, List.filter_append, List.filter_append,
        filter_assignOrdersFrom_none isOther hpO _ hPnotO,
        filter_assignOrdersFrom_none isOther hpO _ hDnotO,
        filter_assignOrdersFrom_all isOther hpO _ hOall,
        List.nil_append, List.nil_append]
    have hlenP : ((assignOrdersFrom 1 P).length : Int) = (P.length : Int) := by
      have := congrArg List.length (assignOrdersFrom_map_eraseOrder 1 P)
      simp only [List.length_map] at this
      exact_mod_cast this
    have hlenD : ((assignOrdersFrom (1 + (P.length : Int)) D).length : Int) =
        (D.length : Int) := by
      have := congrArg List.length
        (assignOrdersFrom_map_eraseOrder (1 + (P.length : Int)) D)
      simp only [List.length_map] at this
      exact_mod_cast this
    show assignOrdersFrom 1
        ((optimizeWaypoints ws).filter isPickup ++
          (optimizeWaypoints ws).filter isDelivery ++
          (optimizeWaypoints ws).filter isOther) = optimizeWaypoints ws
    rw [hfP, hfD, hfO, List.append_assoc, assignOrdersFrom_append, hlenP,
      assignOrdersFrom_append, hlenD, assignOrdersFrom_idem,
      assignOrdersFrom_idem, assignOrdersFrom_idem]
    exact hsplit.symm
  exact ⟨hfix, by rw [hfix]⟩

end IntelliRoute
